import Mathlib

/-!
# Verification of the landing-decision waypoint generator

Shallow embedding of `src/global_planner/src/nodes/waypoint_generator.cpp`
(namespace `avoidance`, class `WaypointGenerator`).  Floating-point scalars
are modelled as rationals; the IEEE `NAN` sentinel used by the source to mark
an unconstrained axis is modelled as `Option ℚ` with `none` standing for NaN,
following the spec's description of unconstrained-axis setpoints.
-/

namespace WaypointGen

/-- The four controller states of `GPState` in the source. -/
inductive GPState where
  | GOTO
  | ALTITUDE_CHANGE
  | LOITER
  | LAND
deriving DecidableEq, Repr

/-- The `usm::Transition` values returned by the state handlers. -/
inductive Transition where
  | NEXT1
  | NEXT2
  | REPEAT
  | ERROR
deriving DecidableEq, Repr

/-- A 3D vector whose altitude component may be NaN (`none`), as the source
stores `goal_`, `loiter_position_` and `exploration_anchor_` whose `z()` is
overwritten with `NAN` in places. -/
structure V3 where
  x : ℚ
  y : ℚ
  z : Option ℚ
deriving DecidableEq, Repr

/-- A 3D vector any of whose components may be NaN, as the source's
`velocity_setpoint_` and the constant `nan_setpoint`. -/
structure V3o where
  x : Option ℚ
  y : Option ℚ
  z : Option ℚ
deriving DecidableEq, Repr

/-- A plain 3D point (the vehicle position input, never NaN). -/
structure P3 where
  x : ℚ
  y : ℚ
  z : ℚ
deriving DecidableEq, Repr

/-- `nan_setpoint = Eigen::Vector3f(NAN, NAN, NAN)` from the source. -/
def nan_setpoint : V3o := ⟨none, none, none⟩

/-- The terrain grid input (`grid_slp_` plus its sequence counter
`grid_slp_seq_`): cell contents, row count, physical cell size. -/
structure Grid where
  land : ℤ → ℤ → ℚ
  rows : ℕ
  cellSize : ℚ
  seq : ℤ
deriving Inhabited

/-- Configuration parameters of the generator.  `exploration_pattern` and
`nextYaw` are modelled from the spec: the fixed spiral pattern constant and
the `avoidance::nextYaw` helper live in headers that are not part of the
source excerpt, so the pattern is kept as configuration data (spec §4.3: a
fixed, precomputed closed sequence of 2D points) and `nextYaw` as an
abstract yaw-toward-goal function (spec §4.4). -/
structure Config where
  smoothing_land_cell : ℕ
  beta : ℚ
  can_land_thr : ℚ
  loiter_height : ℚ
  spiral_width : ℚ
  LAND_SPEED : ℚ
  exploration_pattern : List (ℚ × ℚ)
  nextYaw : ℚ → ℚ → ℚ → ℚ → ℚ

/-- Per-cycle inputs to the controller.  `percentile80` is modelled from the
spec: `landingAreaHeightPercentile(80.f)` is implemented outside the source
excerpt; the spec (§4.1) requires it to be a deterministic function of the
grid, so its value on this cycle's grid is supplied as an input. -/
structure Input where
  position : P3
  yaw : ℚ
  grid : Grid
  percentile80 : ℚ
  is_land_waypoint : Bool
  trigger_reset : Bool

/-- The mutable controller state threaded across cycles (the member fields of
`WaypointGenerator` used by the excerpt). -/
structure WGState where
  state : GPState
  prev_slp_state : GPState
  goal : V3
  velocity_setpoint : V3o
  yaw_setpoint : Option ℚ
  yaw_speed_setpoint : Option ℚ
  loiter_position : V3
  loiter_yaw : ℚ
  landing_radius : ℚ
  decision_taken : Bool
  can_land : Bool
  can_land_hysteresis : List ℚ
  update_smoothing_size : Bool
  explorarion_is_active : Bool
  n_explored_pattern : ℤ
  factor_exploration : ℚ
  exploration_anchor : V3
  start_seq_landing_decision : ℤ
  altitude_landing_area_percentile : ℚ

/-- The setpoint tuple handed to `publishTrajectorySetpoints_`. -/
structure Setpoint where
  pos : V3
  vel : V3o
  yaw : Option ℚ
  yawRate : Option ℚ
deriving DecidableEq, Repr

/-- Modelled from the spec: `withinLandingRadius()` is declared in the
missing header; spec §4.1 defines it as: horizontal distance between goal
and current position is at most the landing radius.  Stated on squared
distances to stay within the rationals. -/
def withinLandingRadius (inp : Input) (s : WGState) : Bool :=
  decide ((s.goal.x - inp.position.x) ^ 2 + (s.goal.y - inp.position.y) ^ 2
    ≤ s.landing_radius ^ 2)

/-- Modelled from the spec: `inVerticalRange()` is declared in the missing
header; spec §4.1 defines it as: the absolute difference between the current
altitude and the reference altitude is at most `loiter_height_`.  The
reference altitude is `altitude_landing_area_percentile_` (source line 112
logs exactly this difference). -/
def inVerticalRange (c : Config) (inp : Input) (s : WGState) : Bool :=
  decide (|inp.position.z - s.altitude_landing_area_percentile| ≤ c.loiter_height)

/-- `WaypointGenerator::updateGPState()` (source lines 46–65): reallocate and
zero the hysteresis buffer when the smoothing size changed or the buffer is
empty; on a non-landing waypoint clear the decision flags, zero the buffer
(the source calls `reserve`, which does not change the size, then `fill`),
and deactivate exploration. -/
def updateGPState (c : Config) (inp : Input) (s : WGState) : WGState :=
  let n := (c.smoothing_land_cell * 2 + 1) * (c.smoothing_land_cell * 2 + 1)
  let s1 :=
    if s.update_smoothing_size || s.can_land_hysteresis.length == 0 then
      { s with can_land_hysteresis := List.replicate n 0, update_smoothing_size := false }
    else s
  if inp.is_land_waypoint then s1
  else
    { s1 with
      decision_taken := false
      can_land := true
      can_land_hysteresis := s1.can_land_hysteresis.map (fun _ => 0)
      explorarion_is_active := false
      n_explored_pattern := -1
      factor_exploration := 1 }

/-- `WaypointGenerator::chooseNextState` (source lines 67–76).  The explicit
maps are taken from the source: GOTO maps NEXT1 to ALTITUDE_CHANGE and NEXT2
to LOITER; ALTITUDE_CHANGE maps NEXT1 to LOITER; LOITER maps NEXT1 to LAND
and NEXT2 to GOTO; LAND maps nothing.  Modelled from the spec for the
`USM_TABLE`/`USM_STATE`/`USM_MAP` macro expansion (the `usm` header is not in
the source excerpt): REPEAT re-enters the current state and any unmapped
transition falls through to the table's default state, `GPState::GOTO`
(the second argument of `USM_TABLE`). -/
def chooseNextState (current : GPState) (t : Transition) : GPState :=
  match current, t with
  | GPState.GOTO, Transition.NEXT1 => GPState.ALTITUDE_CHANGE
  | GPState.GOTO, Transition.NEXT2 => GPState.LOITER
  | GPState.GOTO, Transition.REPEAT => GPState.GOTO
  | GPState.GOTO, Transition.ERROR => GPState.GOTO
  | GPState.ALTITUDE_CHANGE, Transition.NEXT1 => GPState.LOITER
  | GPState.ALTITUDE_CHANGE, Transition.REPEAT => GPState.ALTITUDE_CHANGE
  | GPState.ALTITUDE_CHANGE, _ => GPState.GOTO
  | GPState.LOITER, Transition.NEXT1 => GPState.LAND
  | GPState.LOITER, Transition.NEXT2 => GPState.GOTO
  | GPState.LOITER, Transition.REPEAT => GPState.LOITER
  | GPState.LOITER, Transition.ERROR => GPState.GOTO
  | GPState.LAND, Transition.REPEAT => GPState.LAND
  | GPState.LAND, _ => GPState.GOTO

/-- `WaypointGenerator::runGoTo()` (source lines 99–123). -/
def runGoTo (c : Config) (inp : Input) (s : WGState) :
    Transition × WGState × Option Setpoint :=
  let s1 := { s with decision_taken := false }
  let s2 :=
    if s1.explorarion_is_active then
      { s1 with
        landing_radius := 1/2
        yaw_setpoint := some (c.nextYaw inp.position.x inp.position.y s1.goal.x s1.goal.y) }
    else s1
  let pub : Setpoint := ⟨s2.goal, s2.velocity_setpoint, s2.yaw_setpoint, s2.yaw_speed_setpoint⟩
  let s3 := { s2 with
    altitude_landing_area_percentile := inp.percentile80
    can_land_hysteresis := s2.can_land_hysteresis.map (fun _ => 0) }
  if withinLandingRadius inp s3 && !inVerticalRange c inp s3 && inp.is_land_waypoint then
    (Transition.NEXT1, s3, some pub)
  else if withinLandingRadius inp s3 && inVerticalRange c inp s3 && inp.is_land_waypoint then
    (Transition.NEXT2, { s3 with start_seq_landing_decision := inp.grid.seq }, some pub)
  else
    (Transition.REPEAT, s3, some pub)

/-- `WaypointGenerator::runAltitudeChange()` (source lines 125–149). -/
def runAltitudeChange (c : Config) (inp : Input) (s : WGState) :
    Transition × WGState × Option Setpoint :=
  let s1 :=
    if s.prev_slp_state ≠ GPState.ALTITUDE_CHANGE then { s with yaw_setpoint := some inp.yaw }
    else s
  let s2 := { s1 with
    goal := { s1.goal with z := none }
    altitude_landing_area_percentile := inp.percentile80 }
  let direction : ℚ :=
    if |inp.position.z - s2.altitude_landing_area_percentile| - c.loiter_height < 0 then 1
    else -1
  let s3 := { s2 with
    velocity_setpoint := { s2.velocity_setpoint with z := some (direction * c.LAND_SPEED) } }
  let pub : Setpoint := ⟨s3.goal, s3.velocity_setpoint, s3.yaw_setpoint, s3.yaw_speed_setpoint⟩
  let s4 := if s3.explorarion_is_active then { s3 with landing_radius := 1/2 } else s3
  if withinLandingRadius inp s4 && inVerticalRange c inp s4 && inp.is_land_waypoint then
    (Transition.NEXT1, { s4 with start_seq_landing_decision := inp.grid.seq }, some pub)
  else
    (Transition.REPEAT, s4, some pub)

/-- `WaypointGenerator::runLand()` (source lines 214–222): strip the altitude
from the loiter target, command a constant descent, repeat. -/
def runLand (c : Config) (s : WGState) : Transition × WGState × Option Setpoint :=
  let s1 := { s with loiter_position := { s.loiter_position with z := none } }
  let vel : V3o := { nan_setpoint with z := some (-c.LAND_SPEED) }
  (Transition.REPEAT, s1, some ⟨s1.loiter_position, vel, some s1.loiter_yaw, none⟩)

/-- The per-cell exponential smoothing update of the landing-suitability
filter (source line 164):
`can_land_hysteresis_[index] = beta_ * prev + (1 - beta_) * cell_land_value`. -/
def hysteresisUpdate (beta prev value : ℚ) : ℚ :=
  beta * prev + (1 - beta) * value

/-- The double loop of `runLoiter` over the square smoothing window (source
lines 157–168): for window coordinates `a = i - offset_center +
smoothing_land_cell` and `b` likewise for `j`, the flat index is
`(2*smoothing_land_cell + 1) * a + b` and the cell updated from
`grid_slp_.land_(i, j)`.  The resulting buffer is enumerated by that flat
index. -/
def smoothedList (c : Config) (inp : Input) (old : List ℚ) : List ℚ :=
  let sc := c.smoothing_land_cell
  let w := 2 * sc + 1
  let oc : ℤ := (inp.grid.rows : ℤ) / 2
  (List.range (w * w)).map fun k =>
    hysteresisUpdate c.beta (old.getD k 0)
      (inp.grid.land (oc - sc + (k / w : ℕ)) (oc - sc + (k % w : ℕ)))

/-- The decision loop of `runLoiter` (source lines 173–183): walk the
hysteresis buffer keeping a counter of cells that vote land, AND each vote
into `can_land`, and re-flip `can_land` to true when it is false while the
counter has reached the buffer size `n`. -/
def canLandLoop (thr : ℚ) (n : ℕ) : List ℚ → ℕ → Bool → Bool
  | [], _, can => can
  | v :: rest, counter, can =>
    let counter1 := if v > thr then counter + 1 else counter
    let can1 := can && decide (v > thr)
    let can2 := if can1 = false ∧ counter1 = n then true else can1
    canLandLoop thr n rest counter1 can2

/-- The exploration advance of `runLoiter` (source lines 197–207): the offset
magnitude is computed from the current growth factor, then the pattern index
is incremented, wrapping to 0 and bumping the growth factor when it reaches
the pattern length, and the new goal is the anchor displaced by the offset
times the pattern point, at the anchor's altitude. -/
def explorationStep (c : Config) (cellSize : ℚ) (anchor : V3) (n : ℤ) (factor : ℚ) :
    ℤ × ℚ × V3 :=
  let offset := c.spiral_width * factor * 2 * (c.smoothing_land_cell : ℚ) * cellSize
  let n1 := n + 1
  let nf : ℤ × ℚ := if n1 = (c.exploration_pattern.length : ℤ) then (0, factor + 1) else (n1, factor)
  let p := c.exploration_pattern.getD nf.1.toNat (0, 0)
  (nf.1, nf.2, ⟨anchor.x + offset * p.1, anchor.y + offset * p.2, anchor.z⟩)

/-- `WaypointGenerator::runLoiter()` (source lines 151–212). -/
def runLoiter (c : Config) (inp : Input) (s : WGState) :
    Transition × WGState × Option Setpoint :=
  let s1 :=
    if s.prev_slp_state ≠ GPState.LOITER then
      { s with
        loiter_position := ⟨inp.position.x, inp.position.y, some inp.position.z⟩
        loiter_yaw := inp.yaw }
    else s
  let s2 := { s1 with can_land_hysteresis := smoothedList c inp s1.can_land_hysteresis }
  let s3 :=
    if (inp.grid.seq - s2.start_seq_landing_decision).natAbs > 20 then
      { s2 with
        decision_taken := true
        can_land := canLandLoop c.can_land_thr s2.can_land_hysteresis.length
          s2.can_land_hysteresis 0 s2.can_land }
    else s2
  let pub : Setpoint := ⟨s3.loiter_position, nan_setpoint, some s3.loiter_yaw, none⟩
  if s3.decision_taken && s3.can_land then
    (Transition.NEXT1, s3, some pub)
  else if s3.decision_taken && !s3.can_land then
    let s4 :=
      if !s3.explorarion_is_active then
        { s3 with exploration_anchor := s3.loiter_position, explorarion_is_active := true }
      else s3
    let step := explorationStep c inp.grid.cellSize s4.exploration_anchor
      s4.n_explored_pattern s4.factor_exploration
    (Transition.NEXT2,
      { s4 with
        n_explored_pattern := step.1
        factor_exploration := step.2.1
        goal := step.2.2
        velocity_setpoint := nan_setpoint },
      some pub)
  else
    (Transition.REPEAT, s3, some pub)

/-- `WaypointGenerator::runCurrentState()` (source lines 78–97): a pending
reset aborts the cycle with an ERROR transition and no setpoint; otherwise
the current state's handler runs. -/
def runCurrentState (c : Config) (inp : Input) (s : WGState) :
    Transition × WGState × Option Setpoint :=
  if inp.trigger_reset then (Transition.ERROR, s, none)
  else
    match s.state with
    | GPState.GOTO => runGoTo c inp s
    | GPState.ALTITUDE_CHANGE => runAltitudeChange c inp s
    | GPState.LOITER => runLoiter c inp s
    | GPState.LAND => runLand c s

/-- `WaypointGenerator::calculateWaypoint()` (source lines 36–44):
`updateGPState()` followed by one state-machine iteration.  Modelled from the
spec for `usm::StateMachine::iterateOnce` (the `usm` header is not in the
source excerpt): the spec's transition table is deterministic and evaluated
once per cycle after running the current state's logic, so the iteration runs
the current state's handler and then `chooseNextState`, which records the
previous state (source line 68 sets `prev_slp_state_ = currentState`). -/
def calculateWaypoint (c : Config) (inp : Input) (s : WGState) :
    WGState × Option Setpoint :=
  let s1 := updateGPState c inp s
  let r := runCurrentState c inp s1
  ({ r.2.1 with state := chooseNextState s1.state r.1, prev_slp_state := s1.state }, r.2.2)

/-! ## Iterated per-cell smoothing (for the hysteresis-convergence analysis) -/

/-- The sequence of smoothed values obtained by holding a constant raw cell
value `v` across cycles, starting from `s0`, under the per-cell update of
source line 164. -/
def hystSeq (beta v s0 : ℚ) : ℕ → ℚ
  | 0 => s0
  | n + 1 => hysteresisUpdate beta (hystSeq beta v s0 n) v

/-! ## Concrete fixtures used by counterexamples and witnesses -/

/-- A one-point exploration pattern, standing in for the fixed spiral
constant of the missing header. -/
def patX : List (ℚ × ℚ) := [(1, 0)]

/-- A small concrete configuration: 3×3 smoothing window, `beta = 1/2`,
landing threshold `1/2`, loiter height 1, spiral width 1, land speed `1/2`. -/
def cfg1 : Config :=
  ⟨1, 1/2, 1/2, 1, 1, 1/2, patX, fun _ _ _ _ => 0⟩

/-- A terrain grid whose cells all hold the constant `q`. -/
def gridConst (q : ℚ) (seq : ℤ) : Grid := ⟨fun _ _ => q, 5, 1/2, seq⟩

/-- A generic starting state in GOTO. -/
def baseState : WGState where
  state := GPState.GOTO
  prev_slp_state := GPState.GOTO
  goal := ⟨0, 0, some 0⟩
  velocity_setpoint := ⟨some 0, some 0, some 0⟩
  yaw_setpoint := none
  yaw_speed_setpoint := none
  loiter_position := ⟨0, 0, some 0⟩
  loiter_yaw := 0
  landing_radius := 2
  decision_taken := false
  can_land := true
  can_land_hysteresis := []
  update_smoothing_size := false
  explorarion_is_active := false
  n_explored_pattern := -1
  factor_exploration := 1
  exploration_anchor := ⟨0, 0, some 0⟩
  start_seq_landing_decision := 0
  altitude_landing_area_percentile := 0

/-- A LOITER state with frozen loiter pose (0,0,5), a zeroed 3×3 hysteresis
buffer, and landing-decision sequence captured at 0. -/
def sLoiterEx : WGState :=
  { baseState with
    state := GPState.LOITER
    prev_slp_state := GPState.LOITER
    loiter_position := ⟨0, 0, some 5⟩
    can_land_hysteresis := List.replicate 9 0 }

/-- The LOITER state of `sLoiterEx` with exploration already active at the
last pattern index, about to wrap. -/
def sLoiterWrap : WGState :=
  { sLoiterEx with
    explorarion_is_active := true
    exploration_anchor := ⟨0, 0, some 5⟩
    n_explored_pattern := 0
    factor_exploration := 1 }

/-- An ALTITUDE_CHANGE state. -/
def sAltCh : WGState :=
  { baseState with
    state := GPState.ALTITUDE_CHANGE
    prev_slp_state := GPState.ALTITUDE_CHANGE }

/-- A GOTO state with exploration active. -/
def sGotoExplor : WGState :=
  { baseState with explorarion_is_active := true }

/-- A LAND state. -/
def sLand : WGState :=
  { baseState with
    state := GPState.LAND
    prev_slp_state := GPState.LAND
    loiter_position := ⟨0, 0, some 5⟩ }

/-- Landing-waypoint input at the loiter position, all-zero terrain, grid
sequence 21 (decision window elapsed relative to start sequence 0). -/
def inpZero21 : Input := ⟨⟨0, 0, 5⟩, 0, gridConst 0 21, 5, true, false⟩

/-- As `inpZero21` but with grid sequence 20: the difference to the captured
start sequence is exactly 20. -/
def inpZero20 : Input := ⟨⟨0, 0, 5⟩, 0, gridConst 0 20, 5, true, false⟩

/-- Non-landing-waypoint input with all-one terrain and elapsed window. -/
def inpNoLand21 : Input := ⟨⟨0, 0, 5⟩, 0, gridConst 1 21, 5, false, false⟩

/-- Input for a vehicle at altitude 0 while the 80th-percentile terrain
reference is 10: the vehicle sits far below the target altitude band. -/
def inpBelow : Input := ⟨⟨0, 0, 0⟩, 0, gridConst 0 0, 10, true, false⟩

/-- A plain landing-waypoint input. -/
def inpPlain : Input := ⟨⟨0, 0, 5⟩, 0, gridConst 0 0, 5, true, false⟩

/-- A plain non-landing-waypoint input. -/
def inpNoLand : Input := ⟨⟨0, 0, 5⟩, 0, gridConst 0 0, 5, false, false⟩

/-! ## Helper lemmas -/

@[simp]
lemma updateGPState_state (c : Config) (inp : Input) (s : WGState) :
    (updateGPState c inp s).state = s.state := by
  unfold updateGPState
  split <;> split <;> rfl

@[simp]
lemma updateGPState_prev_slp_state (c : Config) (inp : Input) (s : WGState) :
    (updateGPState c inp s).prev_slp_state = s.prev_slp_state := by
  unfold updateGPState
  split <;> split <;> rfl

@[simp]
lemma updateGPState_start_seq (c : Config) (inp : Input) (s : WGState) :
    (updateGPState c inp s).start_seq_landing_decision = s.start_seq_landing_decision := by
  unfold updateGPState
  split <;> split <;> rfl

@[simp]
lemma updateGPState_loiter_position (c : Config) (inp : Input) (s : WGState) :
    (updateGPState c inp s).loiter_position = s.loiter_position := by
  unfold updateGPState
  split <;> split <;> rfl

@[simp]
lemma updateGPState_loiter_yaw (c : Config) (inp : Input) (s : WGState) :
    (updateGPState c inp s).loiter_yaw = s.loiter_yaw := by
  unfold updateGPState
  split <;> split <;> rfl

@[simp]
lemma updateGPState_landing_radius (c : Config) (inp : Input) (s : WGState) :
    (updateGPState c inp s).landing_radius = s.landing_radius := by
  unfold updateGPState
  split <;> split <;> rfl

@[simp]
lemma updateGPState_goal (c : Config) (inp : Input) (s : WGState) :
    (updateGPState c inp s).goal = s.goal := by
  unfold updateGPState
  split <;> split <;> rfl

@[simp]
lemma updateGPState_exploration_anchor (c : Config) (inp : Input) (s : WGState) :
    (updateGPState c inp s).exploration_anchor = s.exploration_anchor := by
  unfold updateGPState
  split <;> split <;> rfl

lemma updateGPState_decision_taken_of_land (c : Config) (inp : Input) (s : WGState)
    (h : inp.is_land_waypoint = true) :
    (updateGPState c inp s).decision_taken = s.decision_taken := by
  unfold updateGPState
  rw [h]
  split <;> rfl

lemma updateGPState_can_land_of_land (c : Config) (inp : Input) (s : WGState)
    (h : inp.is_land_waypoint = true) :
    (updateGPState c inp s).can_land = s.can_land := by
  unfold updateGPState
  rw [h]
  split <;> rfl

lemma updateGPState_explorarion_of_land (c : Config) (inp : Input) (s : WGState)
    (h : inp.is_land_waypoint = true) :
    (updateGPState c inp s).explorarion_is_active = s.explorarion_is_active := by
  unfold updateGPState
  rw [h]
  split <;> rfl

lemma updateGPState_n_explored_of_land (c : Config) (inp : Input) (s : WGState)
    (h : inp.is_land_waypoint = true) :
    (updateGPState c inp s).n_explored_pattern = s.n_explored_pattern := by
  unfold updateGPState
  rw [h]
  split <;> rfl

lemma updateGPState_factor_of_land (c : Config) (inp : Input) (s : WGState)
    (h : inp.is_land_waypoint = true) :
    (updateGPState c inp s).factor_exploration = s.factor_exploration := by
  unfold updateGPState
  rw [h]
  split <;> rfl

lemma updateGPState_hysteresis_steady (c : Config) (inp : Input) (s : WGState)
    (h : inp.is_land_waypoint = true) (h2 : s.update_smoothing_size = false)
    (h3 : s.can_land_hysteresis.length ≠ 0) :
    (updateGPState c inp s).can_land_hysteresis = s.can_land_hysteresis := by
  unfold updateGPState
  rw [h, h2]
  simp [h3]

lemma canLandLoop_eq (thr : ℚ) (n : ℕ) (rest : List ℚ) (counter : ℕ) (can : Bool)
    (h : counter + rest.length ≤ n) :
    canLandLoop thr n rest counter can =
      if counter + rest.countP (fun v => decide (v > thr)) = n ∧ rest ≠ [] then true
      else can && rest.all (fun v => decide (v > thr)) := by
  induction rest generalizing counter can with
  | nil => simp [canLandLoop]
  | cons v rest ih =>
    simp only [List.length_cons] at h
    rw [canLandLoop]
    by_cases hv : v > thr
    · have hdv : decide (v > thr) = true := decide_eq_true hv
      rw [if_pos hv]
      by_cases hn : counter + 1 = n
      · have hrest : rest = [] := List.length_eq_zero.mp (by omega)
        subst hrest
        have hcan2 : (if (can && decide (v > thr)) = false ∧ counter + 1 = n then true
            else can && decide (v > thr)) = true := by
          rw [hdv, Bool.and_true]
          cases can
          · rw [if_pos ⟨rfl, hn⟩]
          · rw [if_neg]
            rintro ⟨hcc, -⟩
            exact Bool.noConfusion hcc
        rw [hcan2, canLandLoop, if_pos]
        refine ⟨?_, by simp⟩
        simp [hdv]
        omega
      · have hcan2 : (if (can && decide (v > thr)) = false ∧ counter + 1 = n then true
            else can && decide (v > thr)) = can := by
          rw [if_neg, hdv, Bool.and_true]
          rintro ⟨-, hcc⟩
          exact hn hcc
        rw [hcan2, ih (counter + 1) can (by omega)]
        simp only [List.countP_cons, List.all_cons, hdv, Bool.true_and, if_true]
        by_cases hre : rest = []
        · subst hre
          simp only [List.countP_nil, List.all_nil, Bool.and_true, ne_eq,
            not_true_eq_false, and_false, if_false, List.cons_ne_nil, not_false_eq_true,
            and_true]
          rw [if_neg (by omega)]
        · have hiff : counter + 1 + rest.countP (fun v => decide (v > thr)) = n ∧ rest ≠ [] ↔
              counter + (rest.countP (fun v => decide (v > thr)) + 1) = n ∧
                (v :: rest : List ℚ) ≠ [] := by
            constructor
            · rintro ⟨h1, -⟩
              exact ⟨by omega, by simp⟩
            · rintro ⟨h1, -⟩
              exact ⟨by omega, hre⟩
          simp only [hiff]
    · have hdv : decide (v > thr) = false := decide_eq_false hv
      rw [if_neg hv]
      have hcan1 : (can && decide (v > thr)) = false := by rw [hdv, Bool.and_false]
      rw [hcan1]
      have hcan2 : (if (false : Bool) = false ∧ counter = n then true else (false : Bool)) = false := by
        rw [if_neg]
        rintro ⟨-, hcc⟩
        omega
      rw [hcan2, ih counter false (by omega)]
      have hcount : ¬(counter + rest.countP (fun v => decide (v > thr)) = n) := by
        have hle := List.countP_le_length (p := fun v => decide (v > thr)) (l := rest)
        omega
      rw [if_neg (by rintro ⟨h1, -⟩; exact hcount h1), Bool.false_and]
      rw [if_neg, List.all_cons]
      · simp only [hdv, Bool.false_and, Bool.and_false]
      · rintro ⟨h1, -⟩
        rw [List.countP_cons_of_neg _ _ (by simp [hdv])] at h1
        exact hcount h1

lemma canLandLoop_characterization (thr : ℚ) (can : Bool) (vs : List ℚ) (hne : vs ≠ []) :
    canLandLoop thr vs.length vs 0 can =
      (vs.all (fun v => decide (v > thr)) || (can && vs.all (fun v => decide (v > thr)))) := by
  rw [canLandLoop_eq thr vs.length vs 0 can (by omega)]
  by_cases hall : vs.all (fun v => decide (v > thr)) = true
  · have hc : vs.countP (fun v => decide (v > thr)) = vs.length :=
      List.countP_eq_length.mpr (List.all_eq_true.mp hall)
    simp [hall, hc, hne]
  · have hc : ¬(vs.countP (fun v => decide (v > thr)) = vs.length) := by
      intro hcc
      exact hall (List.all_eq_true.mpr (List.countP_eq_length.mp hcc))
    simp only [Bool.not_eq_true] at hall
    simp [hall, hc]


lemma runLoiter_cases (c : Config) (inp : Input) (s : WGState) :
    ((runLoiter c inp s).1 = Transition.NEXT1 ∧ (runLoiter c inp s).2.1.decision_taken = true ∧
      (runLoiter c inp s).2.1.can_land = true) ∨
    ((runLoiter c inp s).1 = Transition.NEXT2 ∧ (runLoiter c inp s).2.1.decision_taken = true ∧
      (runLoiter c inp s).2.1.can_land = false ∧
      (runLoiter c inp s).2.1.explorarion_is_active = true) ∨
    ((runLoiter c inp s).1 = Transition.REPEAT ∧ (runLoiter c inp s).2.1.decision_taken = false) := by
  unfold runLoiter
  dsimp only
  split_ifs <;> simp_all

@[simp]
lemma withState_decision (w : WGState) (st pv : GPState) :
    ({ w with state := st, prev_slp_state := pv } : WGState).decision_taken = w.decision_taken := rfl

@[simp]
lemma withState_can_land (w : WGState) (st pv : GPState) :
    ({ w with state := st, prev_slp_state := pv } : WGState).can_land = w.can_land := rfl

@[simp]
lemma withState_explor (w : WGState) (st pv : GPState) :
    ({ w with state := st, prev_slp_state := pv } : WGState).explorarion_is_active =
      w.explorarion_is_active := rfl

@[simp]
lemma withState_state (w : WGState) (st pv : GPState) :
    ({ w with state := st, prev_slp_state := pv } : WGState).state = st := rfl

@[simp]
lemma withState_loiter_position (w : WGState) (st pv : GPState) :
    ({ w with state := st, prev_slp_state := pv } : WGState).loiter_position =
      w.loiter_position := rfl

@[simp]
lemma withState_loiter_yaw (w : WGState) (st pv : GPState) :
    ({ w with state := st, prev_slp_state := pv } : WGState).loiter_yaw = w.loiter_yaw := rfl

@[simp]
lemma withState_goal (w : WGState) (st pv : GPState) :
    ({ w with state := st, prev_slp_state := pv } : WGState).goal = w.goal := rfl

@[simp]
lemma withState_velocity (w : WGState) (st pv : GPState) :
    ({ w with state := st, prev_slp_state := pv } : WGState).velocity_setpoint =
      w.velocity_setpoint := rfl

@[simp]
lemma withState_landing_radius (w : WGState) (st pv : GPState) :
    ({ w with state := st, prev_slp_state := pv } : WGState).landing_radius =
      w.landing_radius := rfl

@[simp]
lemma withState_hysteresis (w : WGState) (st pv : GPState) :
    ({ w with state := st, prev_slp_state := pv } : WGState).can_land_hysteresis =
      w.can_land_hysteresis := rfl

@[simp]
lemma withState_n_explored (w : WGState) (st pv : GPState) :
    ({ w with state := st, prev_slp_state := pv } : WGState).n_explored_pattern =
      w.n_explored_pattern := rfl

@[simp]
lemma withState_factor (w : WGState) (st pv : GPState) :
    ({ w with state := st, prev_slp_state := pv } : WGState).factor_exploration =
      w.factor_exploration := rfl

@[simp]
lemma withState_anchor (w : WGState) (st pv : GPState) :
    ({ w with state := st, prev_slp_state := pv } : WGState).exploration_anchor =
      w.exploration_anchor := rfl

lemma calculateWaypoint_loiter (c : Config) (inp : Input) (s : WGState)
    (h : s.state = GPState.LOITER) (hr : inp.trigger_reset = false) :
    calculateWaypoint c inp s =
      ({ (runLoiter c inp (updateGPState c inp s)).2.1 with
          state := chooseNextState GPState.LOITER (runLoiter c inp (updateGPState c inp s)).1
          prev_slp_state := GPState.LOITER },
        (runLoiter c inp (updateGPState c inp s)).2.2) := by
  unfold calculateWaypoint runCurrentState
  simp only [hr, Bool.false_eq_true, if_false, updateGPState_state, h]

lemma calculateWaypoint_goto (c : Config) (inp : Input) (s : WGState)
    (h : s.state = GPState.GOTO) (hr : inp.trigger_reset = false) :
    calculateWaypoint c inp s =
      ({ (runGoTo c inp (updateGPState c inp s)).2.1 with
          state := chooseNextState GPState.GOTO (runGoTo c inp (updateGPState c inp s)).1
          prev_slp_state := GPState.GOTO },
        (runGoTo c inp (updateGPState c inp s)).2.2) := by
  unfold calculateWaypoint runCurrentState
  simp only [hr, Bool.false_eq_true, if_false, updateGPState_state, h]

lemma calculateWaypoint_altch (c : Config) (inp : Input) (s : WGState)
    (h : s.state = GPState.ALTITUDE_CHANGE) (hr : inp.trigger_reset = false) :
    calculateWaypoint c inp s =
      ({ (runAltitudeChange c inp (updateGPState c inp s)).2.1 with
          state := chooseNextState GPState.ALTITUDE_CHANGE
            (runAltitudeChange c inp (updateGPState c inp s)).1
          prev_slp_state := GPState.ALTITUDE_CHANGE },
        (runAltitudeChange c inp (updateGPState c inp s)).2.2) := by
  unfold calculateWaypoint runCurrentState
  simp only [hr, Bool.false_eq_true, if_false, updateGPState_state, h]

lemma calculateWaypoint_land (c : Config) (inp : Input) (s : WGState)
    (h : s.state = GPState.LAND) (hr : inp.trigger_reset = false) :
    calculateWaypoint c inp s =
      ({ (runLand c (updateGPState c inp s)).2.1 with
          state := chooseNextState GPState.LAND (runLand c (updateGPState c inp s)).1
          prev_slp_state := GPState.LAND },
        (runLand c (updateGPState c inp s)).2.2) := by
  unfold calculateWaypoint runCurrentState
  simp only [hr, Bool.false_eq_true, if_false, updateGPState_state, h]

lemma calculateWaypoint_reset (c : Config) (inp : Input) (s : WGState)
    (hr : inp.trigger_reset = true) :
    calculateWaypoint c inp s =
      ({ updateGPState c inp s with
          state := chooseNextState s.state Transition.ERROR
          prev_slp_state := s.state }, none) := by
  unfold calculateWaypoint runCurrentState
  simp only [hr, if_true, updateGPState_state]

lemma runLoiter_decision (c : Config) (inp : Input) (s : WGState) :
    (runLoiter c inp s).2.1.decision_taken =
      (decide (20 < (inp.grid.seq - s.start_seq_landing_decision).natAbs) ||
        s.decision_taken) := by
  unfold runLoiter
  dsimp only
  split_ifs <;> simp_all

lemma runLoiter_publish (c : Config) (inp : Input) (s : WGState) :
    (runLoiter c inp s).2.2 =
      some ⟨(runLoiter c inp s).2.1.loiter_position, nan_setpoint,
        some (runLoiter c inp s).2.1.loiter_yaw, none⟩ := by
  unfold runLoiter
  dsimp only
  split_ifs <;> rfl

lemma runLoiter_landing_radius (c : Config) (inp : Input) (s : WGState) :
    (runLoiter c inp s).2.1.landing_radius = s.landing_radius := by
  unfold runLoiter
  dsimp only
  split_ifs <;> rfl

lemma smoothedList_length (c : Config) (inp : Input) (old : List ℚ) :
    (smoothedList c inp old).length =
      (2 * c.smoothing_land_cell + 1) * (2 * c.smoothing_land_cell + 1) := by
  simp [smoothedList]

lemma smoothedList_ne_nil (c : Config) (inp : Input) (old : List ℚ) :
    smoothedList c inp old ≠ [] := by
  apply List.ne_nil_of_length_pos
  rw [smoothedList_length]
  positivity

lemma runLoiter_can_land_window (c : Config) (inp : Input) (s : WGState)
    (hw : 20 < (inp.grid.seq - s.start_seq_landing_decision).natAbs) :
    (runLoiter c inp s).2.1.can_land =
      canLandLoop c.can_land_thr (smoothedList c inp s.can_land_hysteresis).length
        (smoothedList c inp s.can_land_hysteresis) 0 s.can_land := by
  unfold runLoiter
  dsimp only
  split_ifs <;> simp_all

lemma runLoiter_explore (c : Config) (inp : Input) (s : WGState)
    (h1 : (runLoiter c inp s).1 = Transition.NEXT2) :
    (runLoiter c inp s).2.1.n_explored_pattern =
      (explorationStep c inp.grid.cellSize
        (if s.explorarion_is_active then s.exploration_anchor
          else (runLoiter c inp s).2.1.loiter_position)
        s.n_explored_pattern s.factor_exploration).1 ∧
    (runLoiter c inp s).2.1.factor_exploration =
      (explorationStep c inp.grid.cellSize
        (if s.explorarion_is_active then s.exploration_anchor
          else (runLoiter c inp s).2.1.loiter_position)
        s.n_explored_pattern s.factor_exploration).2.1 ∧
    (runLoiter c inp s).2.1.goal =
      (explorationStep c inp.grid.cellSize
        (if s.explorarion_is_active then s.exploration_anchor
          else (runLoiter c inp s).2.1.loiter_position)
        s.n_explored_pattern s.factor_exploration).2.2 := by
  unfold runLoiter at *
  dsimp only at *
  split_ifs at * <;> simp_all

lemma explorationStep_spec (c : Config) (cs : ℚ) (anchor : V3) (n : ℤ) (factor : ℚ) :
    (n + 1 = (c.exploration_pattern.length : ℤ) →
      (explorationStep c cs anchor n factor).1 = 0 ∧
      (explorationStep c cs anchor n factor).2.1 = factor + 1) ∧
    (n + 1 ≠ (c.exploration_pattern.length : ℤ) →
      (explorationStep c cs anchor n factor).1 = n + 1 ∧
      (explorationStep c cs anchor n factor).2.1 = factor) ∧
    (explorationStep c cs anchor n factor).2.2.x =
      anchor.x + (c.spiral_width * factor * 2 * (c.smoothing_land_cell : ℚ) * cs) *
        (c.exploration_pattern.getD (explorationStep c cs anchor n factor).1.toNat (0, 0)).1 ∧
    (explorationStep c cs anchor n factor).2.2.y =
      anchor.y + (c.spiral_width * factor * 2 * (c.smoothing_land_cell : ℚ) * cs) *
        (c.exploration_pattern.getD (explorationStep c cs anchor n factor).1.toNat (0, 0)).2 ∧
    (explorationStep c cs anchor n factor).2.2.z = anchor.z := by
  unfold explorationStep
  dsimp only
  split_ifs with hw <;> simp_all

lemma updateGPState_decision_false (c : Config) (inp : Input) (s : WGState)
    (hd : s.decision_taken = false) :
    (updateGPState c inp s).decision_taken = false := by
  unfold updateGPState
  dsimp only
  split_ifs <;> simp_all

/-- Claim C2: during a LOITER decision cycle, `can_land` is updated as the
running AND of the per-cell votes (smoothed value > can_land_thr) with its
previous value, except that it is re-flipped back to true whenever every
single cell of the hysteresis buffer votes land: the resulting value is
`allVotes || (previous && allVotes)`. -/
theorem C2_can_land_reflip (c : Config) (inp : Input) (s : WGState)
    (h : s.state = GPState.LOITER) (hr : inp.trigger_reset = false)
    (hl : inp.is_land_waypoint = true)
    (hw : 20 < (inp.grid.seq - s.start_seq_landing_decision).natAbs)
    (hus : s.update_smoothing_size = false)
    (hn : s.can_land_hysteresis.length ≠ 0) :
    (calculateWaypoint c inp s).1.can_land =
      ((smoothedList c inp s.can_land_hysteresis).all
          (fun v => decide (v > c.can_land_thr)) ||
        (s.can_land &&
          (smoothedList c inp s.can_land_hysteresis).all
            (fun v => decide (v > c.can_land_thr)))) := by
  rw [calculateWaypoint_loiter c inp s h hr]
  simp only [withState_can_land]
  rw [runLoiter_can_land_window c inp (updateGPState c inp s)
    (by rw [updateGPState_start_seq]; exact hw)]
  rw [updateGPState_hysteresis_steady c inp s hl hus hn,
    updateGPState_can_land_of_land c inp s hl]
  exact canLandLoop_characterization c.can_land_thr s.can_land
    (smoothedList c inp s.can_land_hysteresis)
    (smoothedList_ne_nil c inp s.can_land_hysteresis)

/-- Claim C2 witness: the theorem applied to a concrete decision cycle. -/
theorem C2_witness :
    (calculateWaypoint cfg1 inpZero21 sLoiterEx).1.can_land =
      ((smoothedList cfg1 inpZero21 sLoiterEx.can_land_hysteresis).all
          (fun v => decide (v > cfg1.can_land_thr)) ||
        (sLoiterEx.can_land &&
          (smoothedList cfg1 inpZero21 sLoiterEx.can_land_hysteresis).all
            (fun v => decide (v > cfg1.can_land_thr)))) :=
  C2_can_land_reflip cfg1 inpZero21 sLoiterEx rfl rfl rfl (by decide!) rfl (by decide!)

/-- Claim C3 counterexample: when the difference between the grid sequence
counter and the captured start sequence is exactly 20, `decision_taken`
remains false (the source tests `abs(...) > 20`, source line 171), refuting
the claim that the decision is taken exactly when the difference reaches
20. -/
theorem C3_counterexample :
    inpZero20.grid.seq - sLoiterEx.start_seq_landing_decision = 20 ∧
    sLoiterEx.state = GPState.LOITER ∧ sLoiterEx.decision_taken = false ∧
    (calculateWaypoint cfg1 inpZero20 sLoiterEx).1.decision_taken = false := by decide!

/-- Claim C3 (amended): starting from an undecided LOITER state,
`decision_taken` becomes true after the cycle exactly when the absolute
difference between the grid sequence counter and the captured start sequence
exceeds 20 (i.e. on the 21st count, not the 20th), independent of terrain
content. -/
theorem C3_amended (c : Config) (inp : Input) (s : WGState)
    (h : s.state = GPState.LOITER) (hr : inp.trigger_reset = false)
    (hd : s.decision_taken = false) :
    ((calculateWaypoint c inp s).1.decision_taken = true ↔
      20 < (inp.grid.seq - s.start_seq_landing_decision).natAbs) := by
  rw [calculateWaypoint_loiter c inp s h hr]
  simp only [withState_decision]
  rw [runLoiter_decision, updateGPState_decision_false c inp s hd, updateGPState_start_seq]
  simp [decide_eq_true_iff]

/-- Claim C3 witness: the amended theorem applied at sequence difference
21. -/
theorem C3_witness :
    ((calculateWaypoint cfg1 inpZero21 sLoiterEx).1.decision_taken = true ↔
      20 < (inpZero21.grid.seq - sLoiterEx.start_seq_landing_decision).natAbs) :=
  C3_amended cfg1 inpZero21 sLoiterEx rfl rfl rfl

/-- Claim C5 counterexample: on a concrete LOITER cycle where a no-land
decision advances the exploration generator, the published setpoint is still
the frozen loiter position (0,0,5), not the new exploration goal (1,0,5)
(the source publishes at line 186, before the exploration branch), refuting
the claim's exploration exception. -/
theorem C5_counterexample :
    (calculateWaypoint cfg1 inpZero21 sLoiterEx).1.decision_taken = true ∧
    (calculateWaypoint cfg1 inpZero21 sLoiterEx).1.can_land = false ∧
    (calculateWaypoint cfg1 inpZero21 sLoiterEx).1.explorarion_is_active = true ∧
    (calculateWaypoint cfg1 inpZero21 sLoiterEx).1.goal = ⟨1, 0, some 5⟩ ∧
    (calculateWaypoint cfg1 inpZero21 sLoiterEx).2 =
      some ⟨⟨0, 0, some 5⟩, nan_setpoint, some 0, none⟩ ∧
    (⟨0, 0, some 5⟩ : V3) ≠ ⟨1, 0, some 5⟩ := by decide!

/-- Claim C5 (amended): in every LOITER cycle, exploring or not, the
emitted trajectory setpoint is the frozen loiter position and yaw with NaN
velocity and yaw rate; the exploration goal is only stored in `goal_` and
emitted by the following GOTO cycle. -/
theorem C5_amended (c : Config) (inp : Input) (s : WGState)
    (h : s.state = GPState.LOITER) (hr : inp.trigger_reset = false) :
    (calculateWaypoint c inp s).2 =
      some ⟨(calculateWaypoint c inp s).1.loiter_position, nan_setpoint,
        some (calculateWaypoint c inp s).1.loiter_yaw, none⟩ := by
  rw [calculateWaypoint_loiter c inp s h hr]
  simp only [withState_loiter_position, withState_loiter_yaw]
  exact runLoiter_publish c inp (updateGPState c inp s)

/-- Claim C5 witness: the amended theorem applied to a concrete LOITER
cycle. -/
theorem C5_witness :
    (calculateWaypoint cfg1 inpZero21 sLoiterEx).2 =
      some ⟨(calculateWaypoint cfg1 inpZero21 sLoiterEx).1.loiter_position, nan_setpoint,
        some (calculateWaypoint cfg1 inpZero21 sLoiterEx).1.loiter_yaw, none⟩ :=
  C5_amended cfg1 inpZero21 sLoiterEx rfl rfl

lemma runAltitudeChange_fields (c : Config) (inp : Input) (s : WGState) :
    (runAltitudeChange c inp s).2.1.goal.z = none ∧
    (runAltitudeChange c inp s).2.1.velocity_setpoint.z =
      some ((if |inp.position.z - inp.percentile80| - c.loiter_height < 0 then (1 : ℚ) else -1) *
        c.LAND_SPEED) := by
  unfold runAltitudeChange
  dsimp only
  split_ifs <;> simp_all

/-- Claim C4 counterexample: a vehicle far below the terrain-percentile
reference band (altitude 0, reference 10, loiter height 1) is commanded a
negative vertical velocity, which points away from the band above it,
refuting the claim that the sign always drives the vehicle toward the
band. -/
theorem C4_counterexample :
    sAltCh.state = GPState.ALTITUDE_CHANGE ∧
    inpBelow.position.z < inpBelow.percentile80 - cfg1.loiter_height ∧
    (calculateWaypoint cfg1 inpBelow sAltCh).1.velocity_setpoint.z = some (-(1/2 : ℚ)) ∧
    (-(1/2 : ℚ)) < 0 := by decide!

/-- Claim C4 (amended): every ALTITUDE_CHANGE cycle sets the goal altitude
to unconstrained and commands vertical velocity
`(if |z - ref| - loiter_height < 0 then 1 else -1) * LAND_SPEED`; in
particular a vehicle above the band is commanded downward, toward the band
(the toward-the-band property fails only for a vehicle below the band). -/
theorem C4_amended (c : Config) (inp : Input) (s : WGState)
    (h : s.state = GPState.ALTITUDE_CHANGE) (hr : inp.trigger_reset = false) :
    (calculateWaypoint c inp s).1.goal.z = none ∧
    (calculateWaypoint c inp s).1.velocity_setpoint.z =
      some ((if |inp.position.z - inp.percentile80| - c.loiter_height < 0 then (1 : ℚ) else -1) *
        c.LAND_SPEED) ∧
    (c.loiter_height < inp.position.z - inp.percentile80 →
      (calculateWaypoint c inp s).1.velocity_setpoint.z = some (-c.LAND_SPEED)) := by
  rw [calculateWaypoint_altch c inp s h hr]
  simp only [withState_goal, withState_velocity]
  obtain ⟨h1, h2⟩ := runAltitudeChange_fields c inp (updateGPState c inp s)
  refine ⟨h1, h2, ?_⟩
  intro hab
  rw [h2, if_neg ?_, neg_one_mul]
  push_neg
  have hle := le_abs_self (inp.position.z - inp.percentile80)
  linarith

/-- Claim C4 witness: the amended theorem applied to a concrete
ALTITUDE_CHANGE cycle. -/
theorem C4_witness :
    (calculateWaypoint cfg1 inpBelow sAltCh).1.goal.z = none ∧
    (calculateWaypoint cfg1 inpBelow sAltCh).1.velocity_setpoint.z =
      some ((if |inpBelow.position.z - inpBelow.percentile80| - cfg1.loiter_height < 0
        then (1 : ℚ) else -1) * cfg1.LAND_SPEED) ∧
    (cfg1.loiter_height < inpBelow.position.z - inpBelow.percentile80 →
      (calculateWaypoint cfg1 inpBelow sAltCh).1.velocity_setpoint.z =
        some (-cfg1.LAND_SPEED)) :=
  C4_amended cfg1 inpBelow sAltCh rfl rfl

/-- Claim C6 counterexample: on a wrap-around exploration step the growth
factor increments (1 to 2) but the emitted goal was computed with the old
factor: goal.x = anchor.x + 1 whereas the claim's formula with the
incremented growth factor gives anchor.x + 2 (the source computes the offset
at line 197 before the wrap increment at lines 199-203). -/
theorem C6_counterexample :
    sLoiterWrap.n_explored_pattern + 1 = (cfg1.exploration_pattern.length : ℤ) ∧
    (calculateWaypoint cfg1 inpZero21 sLoiterWrap).1.n_explored_pattern = 0 ∧
    (calculateWaypoint cfg1 inpZero21 sLoiterWrap).1.factor_exploration =
      sLoiterWrap.factor_exploration + 1 ∧
    (calculateWaypoint cfg1 inpZero21 sLoiterWrap).1.goal.x ≠
      sLoiterWrap.exploration_anchor.x +
        cfg1.spiral_width * (calculateWaypoint cfg1 inpZero21 sLoiterWrap).1.factor_exploration *
          2 * (cfg1.smoothing_land_cell : ℚ) * inpZero21.grid.cellSize *
          (cfg1.exploration_pattern.getD
            (calculateWaypoint cfg1 inpZero21 sLoiterWrap).1.n_explored_pattern.toNat (0, 0)).1 := by
  decide!

/-- Claim C6 (amended): each time LOITER decides it cannot land, the
exploration generator advances its pattern index by one, wrapping to the
start and incrementing the growth factor by exactly 1.0 at the end of the
pattern, and the new goal equals the anchor plus the pattern point scaled by
`spiral_width * growth_factor * 2 * smoothing_land_cell * grid_cell_size`
computed with the growth factor from before the wrap increment, preserving
the anchor's altitude. -/
theorem C6_amended (c : Config) (inp : Input) (s : WGState)
    (h : s.state = GPState.LOITER) (hr : inp.trigger_reset = false)
    (hl : inp.is_land_waypoint = true)
    (hd : (calculateWaypoint c inp s).1.decision_taken = true)
    (hc : (calculateWaypoint c inp s).1.can_land = false) :
    (s.n_explored_pattern + 1 = (c.exploration_pattern.length : ℤ) →
      (calculateWaypoint c inp s).1.n_explored_pattern = 0 ∧
      (calculateWaypoint c inp s).1.factor_exploration = s.factor_exploration + 1) ∧
    (s.n_explored_pattern + 1 ≠ (c.exploration_pattern.length : ℤ) →
      (calculateWaypoint c inp s).1.n_explored_pattern = s.n_explored_pattern + 1 ∧
      (calculateWaypoint c inp s).1.factor_exploration = s.factor_exploration) ∧
    (calculateWaypoint c inp s).1.goal.x =
      (if s.explorarion_is_active then s.exploration_anchor
        else (calculateWaypoint c inp s).1.loiter_position).x +
      (c.spiral_width * s.factor_exploration * 2 * (c.smoothing_land_cell : ℚ) *
        inp.grid.cellSize) *
      (c.exploration_pattern.getD
        (calculateWaypoint c inp s).1.n_explored_pattern.toNat (0, 0)).1 ∧
    (calculateWaypoint c inp s).1.goal.y =
      (if s.explorarion_is_active then s.exploration_anchor
        else (calculateWaypoint c inp s).1.loiter_position).y +
      (c.spiral_width * s.factor_exploration * 2 * (c.smoothing_land_cell : ℚ) *
        inp.grid.cellSize) *
      (c.exploration_pattern.getD
        (calculateWaypoint c inp s).1.n_explored_pattern.toNat (0, 0)).2 ∧
    (calculateWaypoint c inp s).1.goal.z =
      (if s.explorarion_is_active then s.exploration_anchor
        else (calculateWaypoint c inp s).1.loiter_position).z := by
  rw [calculateWaypoint_loiter c inp s h hr] at hd hc ⊢
  simp only [withState_decision, withState_can_land, withState_n_explored, withState_factor,
    withState_goal, withState_loiter_position] at hd hc ⊢
  rcases runLoiter_cases c inp (updateGPState c inp s) with ⟨h1, h2, h3⟩ | ⟨h1, h2, h3, h4⟩ |
    ⟨h1, h2⟩
  · rw [h3] at hc
    exact absurd hc (by simp)
  · have he := runLoiter_explore c inp (updateGPState c inp s) h1
    rw [updateGPState_explorarion_of_land c inp s hl, updateGPState_n_explored_of_land c inp s hl,
      updateGPState_factor_of_land c inp s hl, updateGPState_exploration_anchor] at he
    obtain ⟨hn, hf, hg⟩ := he
    obtain ⟨hw1, hw2, hx, hy, hz⟩ := explorationStep_spec c inp.grid.cellSize
      (if s.explorarion_is_active then s.exploration_anchor
        else (runLoiter c inp (updateGPState c inp s)).2.1.loiter_position)
      s.n_explored_pattern s.factor_exploration
    refine ⟨?_, ?_, ?_, ?_, ?_⟩
    · intro hcond
      rw [hn, hf]
      exact hw1 hcond
    · intro hcond
      rw [hn, hf]
      exact hw2 hcond
    · rw [hg, hn, hx]
    · rw [hg, hn, hy]
    · rw [hg, hz]
  · rw [h2] at hd
    exact absurd hd (by simp)

/-- Claim C6 witness: the amended theorem applied to a concrete first
exploration step. -/
theorem C6_witness :
    (sLoiterEx.n_explored_pattern + 1 = (cfg1.exploration_pattern.length : ℤ) →
      (calculateWaypoint cfg1 inpZero21 sLoiterEx).1.n_explored_pattern = 0 ∧
      (calculateWaypoint cfg1 inpZero21 sLoiterEx).1.factor_exploration =
        sLoiterEx.factor_exploration + 1) ∧
    (sLoiterEx.n_explored_pattern + 1 ≠ (cfg1.exploration_pattern.length : ℤ) →
      (calculateWaypoint cfg1 inpZero21 sLoiterEx).1.n_explored_pattern =
        sLoiterEx.n_explored_pattern + 1 ∧
      (calculateWaypoint cfg1 inpZero21 sLoiterEx).1.factor_exploration =
        sLoiterEx.factor_exploration) ∧
    (calculateWaypoint cfg1 inpZero21 sLoiterEx).1.goal.x =
      (if sLoiterEx.explorarion_is_active then sLoiterEx.exploration_anchor
        else (calculateWaypoint cfg1 inpZero21 sLoiterEx).1.loiter_position).x +
      (cfg1.spiral_width * sLoiterEx.factor_exploration * 2 *
        (cfg1.smoothing_land_cell : ℚ) * inpZero21.grid.cellSize) *
      (cfg1.exploration_pattern.getD
        (calculateWaypoint cfg1 inpZero21 sLoiterEx).1.n_explored_pattern.toNat (0, 0)).1 ∧
    (calculateWaypoint cfg1 inpZero21 sLoiterEx).1.goal.y =
      (if sLoiterEx.explorarion_is_active then sLoiterEx.exploration_anchor
        else (calculateWaypoint cfg1 inpZero21 sLoiterEx).1.loiter_position).y +
      (cfg1.spiral_width * sLoiterEx.factor_exploration * 2 *
        (cfg1.smoothing_land_cell : ℚ) * inpZero21.grid.cellSize) *
      (cfg1.exploration_pattern.getD
        (calculateWaypoint cfg1 inpZero21 sLoiterEx).1.n_explored_pattern.toNat (0, 0)).2 ∧
    (calculateWaypoint cfg1 inpZero21 sLoiterEx).1.goal.z =
      (if sLoiterEx.explorarion_is_active then sLoiterEx.exploration_anchor
        else (calculateWaypoint cfg1 inpZero21 sLoiterEx).1.loiter_position).z :=
  C6_amended cfg1 inpZero21 sLoiterEx rfl rfl rfl (by decide!) (by decide!)

lemma runGoTo_props (c : Config) (inp : Input) (s : WGState)
    (hcl : s.can_land = true) (hex : s.explorarion_is_active = false)
    (hn : s.n_explored_pattern = -1) (hf : s.factor_exploration = 1) :
    (runGoTo c inp s).2.1.decision_taken = false ∧
    (runGoTo c inp s).2.1.can_land = true ∧
    (∀ v ∈ (runGoTo c inp s).2.1.can_land_hysteresis, v = 0) ∧
    (runGoTo c inp s).2.1.explorarion_is_active = false ∧
    (runGoTo c inp s).2.1.n_explored_pattern = -1 ∧
    (runGoTo c inp s).2.1.factor_exploration = 1 := by
  unfold runGoTo
  dsimp only
  split_ifs <;> refine ⟨rfl, hcl, ?_, hex, hn, hf⟩ <;>
    (intro v hv
     rcases List.mem_map.mp hv with ⟨a, -, ha⟩
     exact ha.symm)

lemma runAltitudeChange_props (c : Config) (inp : Input) (s : WGState)
    (hd : s.decision_taken = false) (hcl : s.can_land = true)
    (hb : ∀ v ∈ s.can_land_hysteresis, v = 0) (hex : s.explorarion_is_active = false)
    (hn : s.n_explored_pattern = -1) (hf : s.factor_exploration = 1) :
    (runAltitudeChange c inp s).2.1.decision_taken = false ∧
    (runAltitudeChange c inp s).2.1.can_land = true ∧
    (∀ v ∈ (runAltitudeChange c inp s).2.1.can_land_hysteresis, v = 0) ∧
    (runAltitudeChange c inp s).2.1.explorarion_is_active = false ∧
    (runAltitudeChange c inp s).2.1.n_explored_pattern = -1 ∧
    (runAltitudeChange c inp s).2.1.factor_exploration = 1 := by
  unfold runAltitudeChange
  dsimp only
  split_ifs <;> exact ⟨hd, hcl, hb, hex, hn, hf⟩

lemma runLand_props (c : Config) (s : WGState)
    (hd : s.decision_taken = false) (hcl : s.can_land = true)
    (hb : ∀ v ∈ s.can_land_hysteresis, v = 0) (hex : s.explorarion_is_active = false)
    (hn : s.n_explored_pattern = -1) (hf : s.factor_exploration = 1) :
    (runLand c s).2.1.decision_taken = false ∧
    (runLand c s).2.1.can_land = true ∧
    (∀ v ∈ (runLand c s).2.1.can_land_hysteresis, v = 0) ∧
    (runLand c s).2.1.explorarion_is_active = false ∧
    (runLand c s).2.1.n_explored_pattern = -1 ∧
    (runLand c s).2.1.factor_exploration = 1 := by
  unfold runLand
  exact ⟨hd, hcl, hb, hex, hn, hf⟩

/-- Claim C7 counterexample: a non-landing-waypoint cycle whose state is
LOITER with an elapsed decision window ends with decision_taken true and
exploration active: the LOITER handler runs after the reset and re-derives
the decision, refuting the claim's regardless-of-prior-state guarantee for
the whole cycle. -/
theorem C7_counterexample :
    inpNoLand21.is_land_waypoint = false ∧ sLoiterEx.explorarion_is_active = false ∧
    (calculateWaypoint cfg1 inpNoLand21 sLoiterEx).1.decision_taken = true ∧
    (calculateWaypoint cfg1 inpNoLand21 sLoiterEx).1.can_land = false ∧
    (calculateWaypoint cfg1 inpNoLand21 sLoiterEx).1.explorarion_is_active = true := by decide!

/-- Claim C7 (amended): when the input flags the waypoint as not a landing
waypoint, the reset performed by `updateGPState` clears decision_taken,
resets can_land to true, zeroes every entry of the hysteresis buffer and
deactivates exploration (index -1, growth factor 1) regardless of prior
state; the same properties hold at the end of the cycle for every prior
state except LOITER, whose handler may re-derive them in the same cycle. -/
theorem C7_amended (c : Config) (inp : Input) (s : WGState)
    (hnl : inp.is_land_waypoint = false) :
    ((updateGPState c inp s).decision_taken = false ∧
     (updateGPState c inp s).can_land = true ∧
     (∀ v ∈ (updateGPState c inp s).can_land_hysteresis, v = 0) ∧
     (updateGPState c inp s).explorarion_is_active = false ∧
     (updateGPState c inp s).n_explored_pattern = -1 ∧
     (updateGPState c inp s).factor_exploration = 1) ∧
    (s.state ≠ GPState.LOITER →
     ((calculateWaypoint c inp s).1.decision_taken = false ∧
      (calculateWaypoint c inp s).1.can_land = true ∧
      (∀ v ∈ (calculateWaypoint c inp s).1.can_land_hysteresis, v = 0) ∧
      (calculateWaypoint c inp s).1.explorarion_is_active = false ∧
      (calculateWaypoint c inp s).1.n_explored_pattern = -1 ∧
      (calculateWaypoint c inp s).1.factor_exploration = 1)) := by
  have hu : (updateGPState c inp s).decision_taken = false ∧
      (updateGPState c inp s).can_land = true ∧
      (∀ v ∈ (updateGPState c inp s).can_land_hysteresis, v = 0) ∧
      (updateGPState c inp s).explorarion_is_active = false ∧
      (updateGPState c inp s).n_explored_pattern = -1 ∧
      (updateGPState c inp s).factor_exploration = 1 := by
    unfold updateGPState
    dsimp only
    rw [hnl]
    simp only [Bool.false_eq_true, if_false]
    refine ⟨by trivial, by trivial, ?_, by trivial, by trivial, by trivial⟩
    intro v hv
    rcases List.mem_map.mp hv with ⟨a, -, ha⟩
    exact ha.symm
  refine ⟨hu, ?_⟩
  intro hns
  obtain ⟨hud, huc, hub, hue, hun, huf⟩ := hu
  by_cases hr : inp.trigger_reset = true
  · rw [calculateWaypoint_reset c inp s hr]
    simp only [withState_decision, withState_can_land, withState_hysteresis, withState_explor,
      withState_n_explored, withState_factor]
    exact ⟨hud, huc, hub, hue, hun, huf⟩
  · have hr2 : inp.trigger_reset = false := by simpa using hr
    cases hst : s.state
    · rw [calculateWaypoint_goto c inp s hst hr2]
      simp only [withState_decision, withState_can_land, withState_hysteresis, withState_explor,
        withState_n_explored, withState_factor]
      exact runGoTo_props c inp (updateGPState c inp s) huc hue hun huf
    · rw [calculateWaypoint_altch c inp s hst hr2]
      simp only [withState_decision, withState_can_land, withState_hysteresis, withState_explor,
        withState_n_explored, withState_factor]
      exact runAltitudeChange_props c inp (updateGPState c inp s) hud huc hub hue hun huf
    · exact absurd hst hns
    · rw [calculateWaypoint_land c inp s hst hr2]
      simp only [withState_decision, withState_can_land, withState_hysteresis, withState_explor,
        withState_n_explored, withState_factor]
      exact runLand_props c (updateGPState c inp s) hud huc hub hue hun huf

/-- Claim C7 witness: the amended theorem applied to a concrete
non-landing-waypoint cycle from GOTO. -/
theorem C7_witness :
    ((updateGPState cfg1 inpNoLand baseState).decision_taken = false ∧
     (updateGPState cfg1 inpNoLand baseState).can_land = true ∧
     (∀ v ∈ (updateGPState cfg1 inpNoLand baseState).can_land_hysteresis, v = 0) ∧
     (updateGPState cfg1 inpNoLand baseState).explorarion_is_active = false ∧
     (updateGPState cfg1 inpNoLand baseState).n_explored_pattern = -1 ∧
     (updateGPState cfg1 inpNoLand baseState).factor_exploration = 1) ∧
    ((calculateWaypoint cfg1 inpNoLand baseState).1.decision_taken = false ∧
     (calculateWaypoint cfg1 inpNoLand baseState).1.can_land = true ∧
     (∀ v ∈ (calculateWaypoint cfg1 inpNoLand baseState).1.can_land_hysteresis, v = 0) ∧
     (calculateWaypoint cfg1 inpNoLand baseState).1.explorarion_is_active = false ∧
     (calculateWaypoint cfg1 inpNoLand baseState).1.n_explored_pattern = -1 ∧
     (calculateWaypoint cfg1 inpNoLand baseState).1.factor_exploration = 1) :=
  ⟨(C7_amended cfg1 inpNoLand baseState rfl).1,
    (C7_amended cfg1 inpNoLand baseState rfl).2 (by decide)⟩

lemma runGoTo_radius_explor (c : Config) (inp : Input) (s : WGState)
    (h : s.explorarion_is_active = true) :
    (runGoTo c inp s).2.1.landing_radius = 1/2 := by
  unfold runGoTo
  dsimp only
  split_ifs <;> simp_all

lemma runAltitudeChange_radius_explor (c : Config) (inp : Input) (s : WGState)
    (h : s.explorarion_is_active = true) :
    (runAltitudeChange c inp s).2.1.landing_radius = 1/2 := by
  unfold runAltitudeChange
  dsimp only
  split_ifs <;> simp_all

lemma runGoTo_radius_half (c : Config) (inp : Input) (s : WGState)
    (h : s.landing_radius = 1/2) :
    (runGoTo c inp s).2.1.landing_radius = 1/2 := by
  unfold runGoTo
  dsimp only
  split_ifs <;> simp_all

lemma runAltitudeChange_radius_half (c : Config) (inp : Input) (s : WGState)
    (h : s.landing_radius = 1/2) :
    (runAltitudeChange c inp s).2.1.landing_radius = 1/2 := by
  unfold runAltitudeChange
  dsimp only
  split_ifs <;> simp_all

lemma runLand_radius (c : Config) (s : WGState) :
    (runLand c s).2.1.landing_radius = s.landing_radius := rfl

/-- Claim C10: a GOTO or ALTITUDE_CHANGE cycle that runs while exploration
is active sets the landing radius to the fixed value 1/2; a landing radius
of 1/2 is preserved by every subsequent cycle, whatever the state or input;
and the reset in `updateGPState` (including the non-landing-waypoint reset)
never touches the landing radius. -/
theorem C10_landing_radius (c : Config) (inp : Input) (s : WGState) :
    ((s.state = GPState.GOTO ∨ s.state = GPState.ALTITUDE_CHANGE) →
      inp.trigger_reset = false → inp.is_land_waypoint = true →
      s.explorarion_is_active = true →
      (calculateWaypoint c inp s).1.landing_radius = 1/2) ∧
    (s.landing_radius = 1/2 → (calculateWaypoint c inp s).1.landing_radius = 1/2) ∧
    (updateGPState c inp s).landing_radius = s.landing_radius := by
  refine ⟨?_, ?_, updateGPState_landing_radius c inp s⟩
  · rintro (hst | hst) hr hl hex
    · rw [calculateWaypoint_goto c inp s hst hr]
      simp only [withState_landing_radius]
      exact runGoTo_radius_explor c inp (updateGPState c inp s)
        (by rw [updateGPState_explorarion_of_land c inp s hl]; exact hex)
    · rw [calculateWaypoint_altch c inp s hst hr]
      simp only [withState_landing_radius]
      exact runAltitudeChange_radius_explor c inp (updateGPState c inp s)
        (by rw [updateGPState_explorarion_of_land c inp s hl]; exact hex)
  · intro hrad
    have hurad : (updateGPState c inp s).landing_radius = 1/2 := by
      rw [updateGPState_landing_radius]
      exact hrad
    by_cases hr : inp.trigger_reset = true
    · rw [calculateWaypoint_reset c inp s hr]
      simp only [withState_landing_radius]
      exact hurad
    · have hr2 : inp.trigger_reset = false := by simpa using hr
      cases hst : s.state
      · rw [calculateWaypoint_goto c inp s hst hr2]
        simp only [withState_landing_radius]
        exact runGoTo_radius_half c inp (updateGPState c inp s) hurad
      · rw [calculateWaypoint_altch c inp s hst hr2]
        simp only [withState_landing_radius]
        exact runAltitudeChange_radius_half c inp (updateGPState c inp s) hurad
      · rw [calculateWaypoint_loiter c inp s hst hr2]
        simp only [withState_landing_radius]
        rw [runLoiter_landing_radius]
        exact hurad
      · rw [calculateWaypoint_land c inp s hst hr2]
        simp only [withState_landing_radius]
        rw [runLand_radius]
        exact hurad

/-- Claim C10 witness: the theorem applied to a concrete exploring GOTO
cycle. -/
theorem C10_witness :
    (calculateWaypoint cfg1 inpPlain sGotoExplor).1.landing_radius = 1/2 ∧
    (updateGPState cfg1 inpPlain sGotoExplor).landing_radius = sGotoExplor.landing_radius :=
  ⟨(C10_landing_radius cfg1 inpPlain sGotoExplor).1 (Or.inl rfl) rfl rfl rfl,
    (C10_landing_radius cfg1 inpPlain sGotoExplor).2.2⟩

lemma hystSeq_closed (beta v s0 : ℚ) (n : ℕ) :
    hystSeq beta v s0 n = v + beta ^ n * (s0 - v) := by
  induction n with
  | zero => simp [hystSeq]
  | succ n ih =>
    rw [hystSeq, hysteresisUpdate, ih]
    ring

/-- Claim C8: for every beta in [0,1), initial smoothed value s0 and
constant raw value v, the iterates of
`smoothed = beta * smoothed_prev + (1 - beta) * v` stay within
[min(v, s0), max(v, s0)], move monotonically toward v (upward when s0 ≤ v,
downward when v ≤ s0, with non-increasing distance to v), and converge to
v. -/
theorem C8_hysteresis_convergence (beta v s0 : ℚ) (h0 : 0 ≤ beta) (h1 : beta < 1) :
    (∀ n, min v s0 ≤ hystSeq beta v s0 n ∧ hystSeq beta v s0 n ≤ max v s0) ∧
    (s0 ≤ v → ∀ n, hystSeq beta v s0 n ≤ hystSeq beta v s0 (n + 1)) ∧
    (v ≤ s0 → ∀ n, hystSeq beta v s0 (n + 1) ≤ hystSeq beta v s0 n) ∧
    (∀ n, |hystSeq beta v s0 (n + 1) - v| ≤ |hystSeq beta v s0 n - v|) ∧
    (∀ ε : ℚ, 0 < ε → ∃ N, ∀ n, N ≤ n → |hystSeq beta v s0 n - v| < ε) := by
  have hpow0 : ∀ n : ℕ, (0:ℚ) ≤ beta ^ n := fun n => pow_nonneg h0 n
  have hpow1 : ∀ n : ℕ, beta ^ n ≤ 1 := fun n => pow_le_one₀ h0 h1.le
  have hmono : ∀ m n : ℕ, m ≤ n → beta ^ n ≤ beta ^ m := fun m n hmn =>
    pow_le_pow_of_le_one h0 h1.le hmn
  refine ⟨?_, ?_, ?_, ?_, ?_⟩
  · intro n
    rw [hystSeq_closed]
    constructor
    · rcases le_total s0 v with hc | hc
      · rw [min_eq_right hc]
        nlinarith [hpow0 n, hpow1 n]
      · rw [min_eq_left hc]
        nlinarith [hpow0 n, hpow1 n]
    · rcases le_total s0 v with hc | hc
      · rw [max_eq_left hc]
        nlinarith [hpow0 n, hpow1 n]
      · rw [max_eq_right hc]
        nlinarith [hpow0 n, hpow1 n]
  · intro hc n
    rw [hystSeq_closed, hystSeq_closed]
    have h2 := mul_le_mul_of_nonpos_right (hmono n (n + 1) (Nat.le_succ n))
      (by linarith : s0 - v ≤ 0)
    linarith
  · intro hc n
    rw [hystSeq_closed, hystSeq_closed]
    have h2 := mul_le_mul_of_nonneg_right (hmono n (n + 1) (Nat.le_succ n))
      (by linarith : (0:ℚ) ≤ s0 - v)
    linarith
  · intro n
    rw [hystSeq_closed, hystSeq_closed, add_sub_cancel_left, add_sub_cancel_left,
      abs_mul, abs_mul, abs_of_nonneg (hpow0 (n + 1)), abs_of_nonneg (hpow0 n)]
    exact mul_le_mul_of_nonneg_right (hmono n (n + 1) (Nat.le_succ n)) (abs_nonneg _)
  · intro ε hε
    obtain ⟨N, hN⟩ := exists_pow_lt_of_lt_one
      (div_pos hε (by positivity : (0:ℚ) < |s0 - v| + 1)) h1
    refine ⟨N, fun n hn => ?_⟩
    rw [hystSeq_closed, add_sub_cancel_left, abs_mul, abs_of_nonneg (hpow0 n)]
    have h2 : beta ^ N * (|s0 - v| + 1) < ε := by
      rw [← lt_div_iff₀ (by positivity : (0:ℚ) < |s0 - v| + 1)]
      exact hN
    calc beta ^ n * |s0 - v| ≤ beta ^ N * |s0 - v| :=
          mul_le_mul_of_nonneg_right (hmono N n hn) (abs_nonneg _)
      _ ≤ beta ^ N * (|s0 - v| + 1) :=
          mul_le_mul_of_nonneg_left (by linarith) (hpow0 N)
      _ < ε := h2

/-- Claim C8 witness: the theorem applied at beta = 1/2, v = 1, s0 = 0. -/
theorem C8_witness :
    (0:ℚ) ≤ 1/2 ∧ ((1/2 : ℚ) < 1) ∧
    ((∀ n, min (1:ℚ) 0 ≤ hystSeq (1/2) 1 0 n ∧ hystSeq (1/2) 1 0 n ≤ max (1:ℚ) 0) ∧
     ((0:ℚ) ≤ 1 → ∀ n, hystSeq (1/2) 1 0 n ≤ hystSeq (1/2) 1 0 (n + 1)) ∧
     ((1:ℚ) ≤ 0 → ∀ n, hystSeq (1/2) 1 0 (n + 1) ≤ hystSeq (1/2) 1 0 n) ∧
     (∀ n, |hystSeq (1/2) 1 0 (n + 1) - 1| ≤ |hystSeq (1/2) 1 0 n - 1|) ∧
     (∀ ε : ℚ, 0 < ε → ∃ N, ∀ n, N ≤ n → |hystSeq (1/2) 1 0 n - 1| < ε)) :=
  ⟨by norm_num, by norm_num,
    C8_hysteresis_convergence (1/2) 1 0 (by norm_num) (by norm_num)⟩

/-- Claim C1 counterexample: in a LOITER cycle that takes a no-land decision
(decision_taken true, can_land false) the next state is GOTO, not LOITER:
`chooseNextState` maps LOITER/NEXT2 to GOTO (source line 74), refuting the
claim that the machine re-enters LOITER. -/
theorem C1_counterexample :
    sLoiterEx.state = GPState.LOITER ∧
    (calculateWaypoint cfg1 inpZero21 sLoiterEx).1.decision_taken = true ∧
    (calculateWaypoint cfg1 inpZero21 sLoiterEx).1.can_land = false ∧
    (calculateWaypoint cfg1 inpZero21 sLoiterEx).1.state = GPState.GOTO ∧
    GPState.GOTO ≠ GPState.LOITER := by decide!

/-- Claim C1 (amended): for every cycle in which the LOITER state ends with
decision_taken true and can_land false, the state machine's next state is
GOTO with exploration active (the exploration step is triggered and the new
exploration goal is handed to the GOTO state). -/
theorem C1_amended (c : Config) (inp : Input) (s : WGState)
    (h : s.state = GPState.LOITER) (hr : inp.trigger_reset = false)
    (hd : (calculateWaypoint c inp s).1.decision_taken = true)
    (hc : (calculateWaypoint c inp s).1.can_land = false) :
    (calculateWaypoint c inp s).1.state = GPState.GOTO ∧
    (calculateWaypoint c inp s).1.explorarion_is_active = true := by
  have hu : (updateGPState c inp s).state = GPState.LOITER := by rw [updateGPState_state, h]
  unfold calculateWaypoint runCurrentState at hd hc ⊢
  simp only [hr, Bool.false_eq_true, if_false, hu, withState_decision, withState_can_land,
    withState_explor, withState_state] at hd hc ⊢
  rcases runLoiter_cases c inp (updateGPState c inp s) with ⟨h1, h2, h3⟩ | ⟨h1, h2, h3, h4⟩ |
    ⟨h1, h2⟩
  · rw [h3] at hc
    exact absurd hc (by simp)
  · rw [h1]
    exact ⟨rfl, h4⟩
  · rw [h2] at hd
    exact absurd hd (by simp)

/-- Claim C1 witness: the amended theorem applied to a concrete no-land
LOITER cycle. -/
theorem C1_witness :
    (calculateWaypoint cfg1 inpZero21 sLoiterEx).1.state = GPState.GOTO ∧
    (calculateWaypoint cfg1 inpZero21 sLoiterEx).1.explorarion_is_active = true :=
  C1_amended cfg1 inpZero21 sLoiterEx rfl rfl (by decide!) (by decide!)

/-- Claim C9: LAND is absorbing: for every input that does not carry an
external reset signal, if the current state is LAND then the next state
after the cycle is again LAND. -/
theorem C9_land_absorbing (c : Config) (inp : Input) (s : WGState)
    (h : s.state = GPState.LAND) (hr : inp.trigger_reset = false) :
    (calculateWaypoint c inp s).1.state = GPState.LAND := by
  unfold calculateWaypoint runCurrentState
  simp only [hr, Bool.false_eq_true, if_false, updateGPState_state, h, runLand]
  rfl

/-- Claim C9 witness: the theorem applied to a concrete LAND cycle. -/
theorem C9_witness : (calculateWaypoint cfg1 inpPlain sLand).1.state = GPState.LAND :=
  C9_land_absorbing cfg1 inpPlain sLand rfl rfl

end WaypointGen
